import Mathlib

/-!
Verification of the SelfHealingAgents incident-trace reducer.

The definitions below are a shallow embedding of the event-processing code of
`src/frontend/src/App.tsx` (the `updateTraceWithEvent` / `updateTraceFromEvent`
reducer that folds server-sent events into a `HealingTrace` record) and of the
`onmessage` handler of `src/frontend/src/hooks/useEventStream.ts`.

JavaScript dynamic values are embedded as follows: optional payload fields
become `Option` types; the JavaScript `||` default operator on numbers and
strings is embedded by `jsOrInt` / `jsOrStr` (`0` and `""` are falsy) and on
arrays by `jsOrList` (an empty array is truthy); the closed string unions of
`src/frontend/src/types/events.ts` become inductive types.
-/

namespace SelfHealing

/-- Step status union from `types/events.ts`: 'pending' | 'running' | 'success' | 'error'. -/
inductive StepStatus
  | pending
  | running
  | success
  | error
deriving DecidableEq, Repr

/-- Trace status union from `types/events.ts`. -/
inductive TraceStatus
  | idle
  | failing
  | rca_ready
  | applying
  | reloaded
  | verifying
  | healed
  | rolled_back
deriving DecidableEq, Repr

/-- The structured `failure` record attached to a step (`types/events.ts`).
The TypeScript field `type` keeps its name; `expected`/`actual` are `any`
in the source and only ever hold a string or `null`, embedded as `Option String`. -/
structure StepFailure where
  type : String
  field : Option String
  expected : Option String
  actual : Option String
  message : String
deriving DecidableEq, Repr

/-- `TraceStep` from `types/events.ts`. -/
structure TraceStep where
  step : String
  status : StepStatus
  timestamp : String
  latency_ms : Option Int := none
  details : Option String := none
  failure : Option StepFailure := none
deriving DecidableEq, Repr

/-- The four guardrail booleans of `CodeChange.guardrails`. -/
structure Guardrails where
  allowlist : Bool
  max_loc : Bool
  no_secrets : Bool
  no_dangerous_ops : Bool
deriving DecidableEq, Repr

/-- `CodeChange` from `types/events.ts` (the fields the reducer writes). -/
structure CodeChange where
  file : String
  diff_lines : List String
  loc_changed : Int
  guardrails : Guardrails
deriving DecidableEq, Repr

/-- One entry of `VerificationResult.tests`. -/
structure TestResult where
  name : String
  passed : Bool
deriving DecidableEq, Repr

/-- `VerificationResult.metrics_deltas`. -/
structure MetricsDeltas where
  p95_change_percent : Int
  fail_rate_change_percent : Int
deriving DecidableEq, Repr

/-- `VerificationResult` from `types/events.ts`; `before`/`after` are opaque
payload snapshots, embedded as strings. -/
structure VerificationResult where
  before : String
  after : String
  latency_ms : Int
  tests : List TestResult
  metrics_deltas : MetricsDeltas
deriving DecidableEq, Repr

/-- `AuditInfo` from `types/events.ts` (the fields the reducer writes). -/
structure AuditInfo where
  incident_id : String
  files_touched : List String
  bytes_written : Int
  hot_reload_success : Bool
  pid : Option Int := none
  commit_sha : Option String := none
deriving DecidableEq, Repr

/-- `HealingTrace` from `types/events.ts` (the fields the reducer reads or writes). -/
structure HealingTrace where
  trace_id : String
  status : TraceStatus
  start_time : String
  duration : Option Int := none
  steps : List TraceStep
  cause : Option String := none
  taxonomy : Option (List String) := none
  confidence : Option Int := none
  fix_applied : Option Bool := none
  error_message : Option String := none
  code_change : Option CodeChange := none
  verification : Option VerificationResult := none
  audit : Option AuditInfo := none
deriving DecidableEq, Repr

/-- The dynamic `payload: Record<string, any>` of an event, embedded as the
record of fields the reducer reads, each at the type the reducer uses it at.
Fields read behind `||` or `?.` are `Option`s. -/
structure Payload where
  failing_step : String := ""
  endpoint : String := ""
  detail : String := ""
  error_type : Option String := none
  cause : String := ""
  playbook : String := ""
  confidence : Int := 0
  file : String := ""
  diff_preview : Option (List String) := none
  loc_changed : Option Int := none
  pid : Int := 0
  before : String := ""
  after : String := ""
  replay_ms : Int := 0
  status : String := ""
  duration_seconds : Int := 0
  message : String := ""
  outcome_commit_sha : Option String := none
deriving DecidableEq, Repr

/-- `Event` from `types/events.ts`. -/
structure Event where
  type : String
  key : String := ""
  payload : Payload := {}
  timestamp : String := ""
  trace_id : Option String := none
  ui_hint : Option String := none
deriving DecidableEq, Repr

/-- JavaScript `x || d` on a possibly-undefined number: `undefined` and `0` are falsy. -/
def jsOrInt (x : Option Int) (d : Int) : Int :=
  match x with
  | some n => if n = 0 then d else n
  | none => d

/-- JavaScript `x || d` on a possibly-undefined string: `undefined` and `""` are falsy. -/
def jsOrStr (x : Option String) (d : String) : String :=
  match x with
  | some s => if s = "" then d else s
  | none => d

/-- JavaScript `x || d` on a possibly-undefined array: only `undefined` is falsy
(an empty array is truthy). -/
def jsOrList (x : Option (List String)) (d : List String) : List String :=
  match x with
  | some l => l
  | none => d

/-- `steps.find(s => s.step === n)` produced a match. -/
def hasStep (l : List TraceStep) (n : String) : Bool :=
  (l.find? (fun s => s.step == n)).isSome

/-- The guarded-append idiom of the reducer: `if (!existing) steps.push(x)`,
where `existing = steps.find(s => s.step === x.step)`. -/
def pushIfAbsent (l : List TraceStep) (x : TraceStep) : List TraceStep :=
  if hasStep l x.step then l else l ++ [x]

/-- The `findIndex` + in-place mutation idiom of the reducer: set the first
step named `n` to `success` with the given latency; no-op when absent. -/
def setStepSuccess (n : String) (lat : Option Int) : List TraceStep → List TraceStep
  | [] => []
  | s :: rest =>
      if s.step == n then { s with status := .success, latency_ms := lat } :: rest
      else s :: setStepSuccess n lat rest

/-- The hard-coded diff fallback of the `morph.apply.succeeded` handler. -/
def defaultDiffLines : List String :=
  ["- POLICY_FIELDS = [\"price\", \"inventory\", \"category\"]",
   "+ POLICY_FIELDS = [\"price\", \"inventory\", \"category\", \"return_policy\"]"]

/-- Shallow embedding of `updateTraceWithEvent` (App.tsx, the ExecutionLane /
ReasoningLane variant): the per-event-type reducer over a `HealingTrace`. -/
def updateTraceWithEvent (trace : HealingTrace) (event : Event) : HealingTrace :=
  match event.type with
  | "return_api.failure" =>
      { trace with
        status := .failing,
        steps :=
          if trace.steps.isEmpty then
            [{ step := "Failure Detected", status := .success,
               timestamp := event.timestamp, latency_ms := some 214,
               details := some (event.payload.endpoint ++ ": " ++ event.payload.detail),
               failure := some
                 { type := jsOrStr event.payload.error_type "SchemaMismatch",
                   field := some "return_policy", expected := some "string",
                   actual := none,
                   message := "return_policy field is required but missing" } }]
          else trace.steps }
  | "trace.start" =>
      { trace with
        status := .failing,
        steps :=
          if trace.steps.isEmpty then
            [{ step := "Failure Detected", status := .success,
               timestamp := event.timestamp, latency_ms := some 214,
               details := some event.payload.failing_step,
               failure := some
                 { type := "SchemaMismatch",
                   field := some "return_policy", expected := some "string",
                   actual := none,
                   message := "return_policy field is required but missing" } }]
          else trace.steps }
  | "rca.ready" =>
      { trace with
        status := .rca_ready,
        cause := some event.payload.cause,
        taxonomy := some [event.payload.playbook, "SchemaMismatch:return_policy"],
        confidence := some event.payload.confidence,
        steps := pushIfAbsent trace.steps
          { step := "Root Cause Analysis", status := .success,
            timestamp := event.timestamp, latency_ms := some 450,
            details := some ("Playbook: " ++ event.payload.playbook) } }
  | "morph.apply.requested" =>
      { trace with
        steps := pushIfAbsent trace.steps
          { step := "Generating Patch", status := .running,
            timestamp := event.timestamp,
            details := some ("File: " ++ event.payload.file) } }
  | "morph.apply.succeeded" =>
      { trace with
        status := .applying,
        code_change := some
          { file := event.payload.file,
            diff_lines := jsOrList event.payload.diff_preview defaultDiffLines,
            loc_changed := jsOrInt event.payload.loc_changed 1,
            guardrails :=
              { allowlist := true, max_loc := true,
                no_secrets := true, no_dangerous_ops := true } },
        steps := pushIfAbsent (setStepSuccess "Generating Patch" (some 850) trace.steps)
          { step := "Applying Patch", status := .running,
            timestamp := event.timestamp,
            details := some (toString (jsOrInt event.payload.loc_changed 1) ++ " lines changed") } }
  | "reload.done" =>
      { trace with
        status := .reloaded,
        steps := pushIfAbsent (setStepSuccess "Applying Patch" (some 320) trace.steps)
          { step := "Service Reloaded", status := .success,
            timestamp := event.timestamp, latency_ms := some 180,
            details := some ("PID: " ++ toString event.payload.pid) },
        audit :=
          match trace.audit with
          | some a => some
              { a with
                pid := some event.payload.pid,
                hot_reload_success := true,
                files_touched := [jsOrStr (trace.code_change.map (fun c => c.file)) "unknown"],
                bytes_written := jsOrInt (trace.code_change.map (fun c => c.loc_changed)) 1 }
          | none => none }
  | "verify.replay.pass" =>
      { trace with
        status := .verifying,
        fix_applied := some true,
        verification := some
          { before := event.payload.before,
            after := event.payload.after,
            latency_ms := event.payload.replay_ms,
            tests := [{ name := "policy_present", passed := true },
                      { name := "eligibility_rule_clearance", passed := true }],
            metrics_deltas := { p95_change_percent := -18, fail_rate_change_percent := -100 } },
        steps := pushIfAbsent trace.steps
          { step := "Verification", status := .success,
            timestamp := event.timestamp, latency_ms := some event.payload.replay_ms,
            details := some "Replay successful" } }
  | "heal.completed" =>
      { trace with
        status := if event.payload.status = "pass" then .healed else .rolled_back,
        duration := some event.payload.duration_seconds,
        error_message :=
          if event.payload.status = "pass" then trace.error_message
          else some event.payload.message,
        audit :=
          match trace.audit, event.payload.outcome_commit_sha with
          | some a, some sha =>
              if sha = "" then some a else some { a with commit_sha := some sha }
          | a, _ => a }
  | _ => trace

/-- The fresh trace built by `updateTraceFromEvent` when no trace with the
event's id exists (`newTrace` in App.tsx). -/
def newTrace (event : Event) (tid : String) : HealingTrace :=
  { trace_id := tid,
    status := .failing,
    start_time := event.timestamp,
    steps := [],
    audit := some
      { incident_id := tid.take 8,
        files_touched := [],
        bytes_written := 0,
        hot_reload_success := false } }

/-- Shallow embedding of `updateTraceFromEvent`: the `setActiveTrace` updater.
An event without a trace id (or with the falsy empty-string id) is ignored;
otherwise a fresh trace is created whenever none exists or the id differs. -/
def updateTraceFromEvent (prev : Option HealingTrace) (event : Event) : Option HealingTrace :=
  match event.trace_id with
  | none => prev
  | some tid =>
      if tid = "" then prev
      else
        match prev with
        | some p =>
            if p.trace_id = tid then some (updateTraceWithEvent p event)
            else some (updateTraceWithEvent (newTrace event tid) event)
        | none => some (updateTraceWithEvent (newTrace event tid) event)

/-- Shallow embedding of the `onmessage` handler of `useEventStream`: a message
arrives, `JSON.parse` either fails (`none`) or yields an event; connection
lifecycle messages are skipped, everything else is appended. -/
def handleStreamMessage (events : List Event) (parsed : Option Event) : List Event :=
  match parsed with
  | none => events
  | some d =>
      if d.type = "connected" ∨ d.type = "disconnected" then events
      else events ++ [d]

/-! ### Helper lemmas about the step-list idioms -/

lemma setStepSuccess_map_step (n : String) (lat : Option Int) (l : List TraceStep) :
    (setStepSuccess n lat l).map (fun s => s.step) = l.map (fun s => s.step) := by
  induction l with
  | nil => rfl
  | cons s rest ih =>
      simp only [setStepSuccess]
      split
      · simp
      · simp [ih]

/-- One step evolved into another: the name is preserved and the status is
either untouched or set to `success`. -/
def stepForward (a b : TraceStep) : Prop :=
  b.step = a.step ∧ (b.status = a.status ∨ b.status = StepStatus.success)

lemma forall₂_stepForward_refl (l : List TraceStep) : List.Forall₂ stepForward l l :=
  List.forall₂_same.mpr (fun _ _ => ⟨rfl, Or.inl rfl⟩)

lemma setStepSuccess_forall₂ (n : String) (lat : Option Int) (l : List TraceStep) :
    List.Forall₂ stepForward l (setStepSuccess n lat l) := by
  induction l with
  | nil => exact List.Forall₂.nil
  | cons s rest ih =>
      simp only [setStepSuccess]
      split
      · exact List.Forall₂.cons ⟨rfl, Or.inr rfl⟩ (forall₂_stepForward_refl rest)
      · exact List.Forall₂.cons ⟨rfl, Or.inl rfl⟩ ih

lemma pushIfAbsent_eq_append (l : List TraceStep) (x : TraceStep) :
    ∃ r, pushIfAbsent l x = l ++ r := by
  unfold pushIfAbsent
  split
  · exact ⟨[], by simp⟩
  · exact ⟨[x], rfl⟩

lemma pushIfAbsent_nodup (l : List TraceStep) (x : TraceStep)
    (h : (l.map (fun s => s.step)).Nodup) :
    ((pushIfAbsent l x).map (fun s => s.step)).Nodup := by
  unfold pushIfAbsent
  split
  · exact h
  · rename_i hfind
    have hnotmem : x.step ∉ l.map (fun s => s.step) := by
      intro hmem
      obtain ⟨s, hs, hstep⟩ := List.mem_map.mp hmem
      apply hfind
      unfold hasStep
      exact List.find?_isSome.mpr ⟨s, hs, by simp [hstep]⟩
    rw [List.map_append]
    simp only [List.map_cons, List.map_nil]
    exact List.nodup_append.mpr
      ⟨h, List.nodup_singleton _, fun a ha ha' => by simp at ha'; exact hnotmem (ha' ▸ ha)⟩

/-! ### Structural lemmas about `updateTraceWithEvent` -/

/-- Every event handler preserves distinctness of step names. -/
lemma update_steps_nodup (t : HealingTrace) (e : Event)
    (h : (t.steps.map (fun s => s.step)).Nodup) :
    (((updateTraceWithEvent t e).steps).map (fun s => s.step)).Nodup := by
  unfold updateTraceWithEvent
  split
  · show ((if t.steps.isEmpty then _ else t.steps).map _).Nodup
    split
    · simp
    · exact h
  · show ((if t.steps.isEmpty then _ else t.steps).map _).Nodup
    split
    · simp
    · exact h
  · exact pushIfAbsent_nodup _ _ h
  · exact pushIfAbsent_nodup _ _ h
  · exact pushIfAbsent_nodup _ _ (by rw [setStepSuccess_map_step]; exact h)
  · exact pushIfAbsent_nodup _ _ (by rw [setStepSuccess_map_step]; exact h)
  · exact pushIfAbsent_nodup _ _ h
  · exact h
  · exact h

/-- Every event handler only extends the step list and never regresses an
existing step: the new list is an evolved copy of the old one (names kept,
statuses at most promoted to `success`) followed by freshly appended steps. -/
lemma update_steps_extends (t : HealingTrace) (e : Event) :
    ∃ l₂ r, (updateTraceWithEvent t e).steps = l₂ ++ r ∧
      List.Forall₂ stepForward t.steps l₂ := by
  unfold updateTraceWithEvent
  split
  · show ∃ l₂ r, (if t.steps.isEmpty then _ else t.steps) = l₂ ++ r ∧ _
    split
    · rename_i hemp
      exact ⟨[], _, rfl, by rw [List.isEmpty_iff.mp hemp]; exact List.Forall₂.nil⟩
    · exact ⟨t.steps, [], by simp, forall₂_stepForward_refl t.steps⟩
  · show ∃ l₂ r, (if t.steps.isEmpty then _ else t.steps) = l₂ ++ r ∧ _
    split
    · rename_i hemp
      exact ⟨[], _, rfl, by rw [List.isEmpty_iff.mp hemp]; exact List.Forall₂.nil⟩
    · exact ⟨t.steps, [], by simp, forall₂_stepForward_refl t.steps⟩
  · obtain ⟨r, hr⟩ := pushIfAbsent_eq_append t.steps _
    exact ⟨t.steps, r, hr, forall₂_stepForward_refl t.steps⟩
  · obtain ⟨r, hr⟩ := pushIfAbsent_eq_append t.steps _
    exact ⟨t.steps, r, hr, forall₂_stepForward_refl t.steps⟩
  · obtain ⟨r, hr⟩ := pushIfAbsent_eq_append (setStepSuccess "Generating Patch" (some 850) t.steps) _
    exact ⟨_, r, hr, setStepSuccess_forall₂ _ _ _⟩
  · obtain ⟨r, hr⟩ := pushIfAbsent_eq_append (setStepSuccess "Applying Patch" (some 320) t.steps) _
    exact ⟨_, r, hr, setStepSuccess_forall₂ _ _ _⟩
  · obtain ⟨r, hr⟩ := pushIfAbsent_eq_append t.steps _
    exact ⟨t.steps, r, hr, forall₂_stepForward_refl t.steps⟩
  · exact ⟨t.steps, [], by simp, forall₂_stepForward_refl t.steps⟩
  · exact ⟨t.steps, [], by simp, forall₂_stepForward_refl t.steps⟩

/-- No event handler writes the `trace_id` field. -/
lemma update_trace_id (t : HealingTrace) (e : Event) :
    (updateTraceWithEvent t e).trace_id = t.trace_id := by
  unfold updateTraceWithEvent
  split <;> rfl

/-! ### Per-event-type equations of `updateTraceWithEvent` -/

lemma update_rca_ready_eq (t : HealingTrace) (e : Event) (h : e.type = "rca.ready") :
    updateTraceWithEvent t e =
      { t with
        status := .rca_ready,
        cause := some e.payload.cause,
        taxonomy := some [e.payload.playbook, "SchemaMismatch:return_policy"],
        confidence := some e.payload.confidence,
        steps := pushIfAbsent t.steps
          { step := "Root Cause Analysis", status := .success,
            timestamp := e.timestamp, latency_ms := some 450,
            details := some ("Playbook: " ++ e.payload.playbook) } } := by
  obtain ⟨ty, k, p, ts, tid, ui⟩ := e
  simp only at h
  subst h
  rfl

lemma update_apply_succeeded_eq (t : HealingTrace) (e : Event)
    (h : e.type = "morph.apply.succeeded") :
    updateTraceWithEvent t e =
      { t with
        status := .applying,
        code_change := some
          { file := e.payload.file,
            diff_lines := jsOrList e.payload.diff_preview defaultDiffLines,
            loc_changed := jsOrInt e.payload.loc_changed 1,
            guardrails :=
              { allowlist := true, max_loc := true,
                no_secrets := true, no_dangerous_ops := true } },
        steps := pushIfAbsent (setStepSuccess "Generating Patch" (some 850) t.steps)
          { step := "Applying Patch", status := .running,
            timestamp := e.timestamp,
            details := some (toString (jsOrInt e.payload.loc_changed 1) ++ " lines changed") } } := by
  obtain ⟨ty, k, p, ts, tid, ui⟩ := e
  simp only at h
  subst h
  rfl

lemma update_verify_pass_eq (t : HealingTrace) (e : Event)
    (h : e.type = "verify.replay.pass") :
    updateTraceWithEvent t e =
      { t with
        status := .verifying,
        fix_applied := some true,
        verification := some
          { before := e.payload.before,
            after := e.payload.after,
            latency_ms := e.payload.replay_ms,
            tests := [{ name := "policy_present", passed := true },
                      { name := "eligibility_rule_clearance", passed := true }],
            metrics_deltas := { p95_change_percent := -18, fail_rate_change_percent := -100 } },
        steps := pushIfAbsent t.steps
          { step := "Verification", status := .success,
            timestamp := e.timestamp, latency_ms := some e.payload.replay_ms,
            details := some "Replay successful" } } := by
  obtain ⟨ty, k, p, ts, tid, ui⟩ := e
  simp only at h
  subst h
  rfl

lemma update_heal_completed_eq (t : HealingTrace) (e : Event)
    (h : e.type = "heal.completed") :
    updateTraceWithEvent t e =
      { t with
        status := if e.payload.status = "pass" then .healed else .rolled_back,
        duration := some e.payload.duration_seconds,
        error_message :=
          if e.payload.status = "pass" then t.error_message
          else some e.payload.message,
        audit :=
          match t.audit, e.payload.outcome_commit_sha with
          | some a, some sha =>
              if sha = "" then some a else some { a with commit_sha := some sha }
          | a, _ => a } := by
  obtain ⟨ty, k, p, ts, tid, ui⟩ := e
  simp only at h
  subst h
  rfl

/-! ### Concrete sample inputs shared by witnesses and counterexamples -/

def sampleTraceStepRunning : TraceStep :=
  { step := "Generating Patch", status := .running, timestamp := "t0" }

def sampleBaseTrace : HealingTrace :=
  { trace_id := "trace-0001", status := .applying, start_time := "t0",
    steps := [sampleTraceStepRunning] }

def emptyStepsTrace : HealingTrace :=
  { trace_id := "trace-0001", status := .failing, start_time := "t0", steps := [] }

def healedTrace : HealingTrace :=
  { trace_id := "trace-0001", status := .healed, start_time := "t0", steps := [],
    cause := some "cause A", confidence := some 92,
    taxonomy := some ["add_missing_field", "SchemaMismatch:return_policy"] }

def diagnosedTrace : HealingTrace :=
  { trace_id := "trace-0001", status := .rca_ready, start_time := "t0", steps := [],
    cause := some "cause A", confidence := some 92,
    taxonomy := some ["add_missing_field", "SchemaMismatch:return_policy"] }

def applyBigEvent : Event :=
  { type := "morph.apply.succeeded", timestamp := "t1", trace_id := some "trace-0001",
    payload := { file := "services/catalog_sync.py", loc_changed := some 1000000 } }

def requestedEvent : Event :=
  { type := "morph.apply.requested", timestamp := "t2", trace_id := some "trace-0001",
    payload := { file := "services/catalog_sync.py" } }

def rcaEventB : Event :=
  { type := "rca.ready", timestamp := "t9", trace_id := some "trace-0001",
    payload := { cause := "cause B", playbook := "other_playbook", confidence := 55 } }

def verifyEvent : Event :=
  { type := "verify.replay.pass", timestamp := "t4", trace_id := some "trace-0001",
    payload := { before := "eligibility-miss", after := "eligibility-ok", replay_ms := 123 } }

def healFailEvent : Event :=
  { type := "heal.completed", timestamp := "t5", trace_id := some "trace-0001",
    payload := { status := "fail", message := "replay verification failed",
                 duration_seconds := 7 } }

/-! ### Claim C1 -/

/-- C1, counterexample: a `morph.apply.succeeded` event whose payload reports
1,000,000 changed lines still yields `guardrails.max_loc = true` and moves the
trace to `applying` — the reducer performs no guardrail evaluation, so a
change exceeding any ceiling reaches the apply phase. -/
theorem c1_counterexample :
    (updateTraceWithEvent (newTrace applyBigEvent "trace-0001") applyBigEvent).status
      = TraceStatus.applying ∧
    ((updateTraceWithEvent (newTrace applyBigEvent "trace-0001") applyBigEvent).code_change.map
      (fun c => c.loc_changed)) = some 1000000 ∧
    ((updateTraceWithEvent (newTrace applyBigEvent "trace-0001") applyBigEvent).code_change.map
      (fun c => c.guardrails.max_loc)) = some true := by
  exact ⟨rfl, rfl, rfl⟩

/-- C1 (amended): the reducer performs no guardrail check at all — every
`morph.apply.succeeded` event sets the trace status to `applying` and records a
`code_change` whose four guardrail booleans are hard-coded `true`, regardless
of `loc_changed`. -/
theorem c1_apply_succeeded_hardcodes_guardrails (t : HealingTrace) (e : Event)
    (h : e.type = "morph.apply.succeeded") :
    (updateTraceWithEvent t e).status = TraceStatus.applying ∧
    (updateTraceWithEvent t e).code_change = some
      { file := e.payload.file,
        diff_lines := jsOrList e.payload.diff_preview defaultDiffLines,
        loc_changed := jsOrInt e.payload.loc_changed 1,
        guardrails :=
          { allowlist := true, max_loc := true,
            no_secrets := true, no_dangerous_ops := true } } := by
  rw [update_apply_succeeded_eq t e h]
  exact ⟨rfl, rfl⟩

/-- C1 witness: the amended theorem applied to a concrete oversized change. -/
theorem c1_witness :
    applyBigEvent.type = "morph.apply.succeeded" ∧
    ((updateTraceWithEvent sampleBaseTrace applyBigEvent).status = TraceStatus.applying ∧
     (updateTraceWithEvent sampleBaseTrace applyBigEvent).code_change = some
       { file := applyBigEvent.payload.file,
         diff_lines := jsOrList applyBigEvent.payload.diff_preview defaultDiffLines,
         loc_changed := jsOrInt applyBigEvent.payload.loc_changed 1,
         guardrails :=
           { allowlist := true, max_loc := true,
             no_secrets := true, no_dangerous_ops := true } }) :=
  ⟨rfl, c1_apply_succeeded_hardcodes_guardrails sampleBaseTrace applyBigEvent rfl⟩

/-! ### Claim C2 -/

lemma forall₂_stepForward_map_step {l l₂ : List TraceStep}
    (h : List.Forall₂ stepForward l l₂) :
    l₂.map (fun s => s.step) = l.map (fun s => s.step) := by
  induction h with
  | nil => rfl
  | cons hab _ ih => simp [ih, hab.1]

lemma mem_pushIfAbsent (l : List TraceStep) (x : TraceStep) :
    x.step ∈ (pushIfAbsent l x).map (fun s => s.step) := by
  unfold pushIfAbsent
  split
  · rename_i hfind
    unfold hasStep at hfind
    obtain ⟨s, hs, hp⟩ := List.find?_isSome.mp hfind
    exact List.mem_map.mpr ⟨s, hs, by simpa using hp⟩
  · simp

/-- Once a step with a given name exists, every later event keeps it present. -/
lemma update_preserves_step_name (n : String) (t : HealingTrace) (e : Event)
    (h : n ∈ t.steps.map (fun s => s.step)) :
    n ∈ (updateTraceWithEvent t e).steps.map (fun s => s.step) := by
  obtain ⟨l₂, r, hsteps, hf⟩ := update_steps_extends t e
  rw [hsteps, List.map_append]
  exact List.mem_append_left _ (by rw [forall₂_stepForward_map_step hf]; exact h)

lemma fold_preserves_step_name (n : String) (es : List Event) (t : HealingTrace)
    (h : n ∈ t.steps.map (fun s => s.step)) :
    n ∈ ((es.foldl updateTraceWithEvent t).steps).map (fun s => s.step) := by
  induction es generalizing t with
  | nil => exact h
  | cons e rest ih => exact ih _ (update_preserves_step_name n t e h)

/-- Processing a `morph.apply.requested` event guarantees a `Generating Patch`
step is present afterwards (pushed when absent, kept when already there). -/
lemma update_requested_mem (t : HealingTrace) (e : Event)
    (h : e.type = "morph.apply.requested") :
    "Generating Patch" ∈ (updateTraceWithEvent t e).steps.map (fun s => s.step) := by
  obtain ⟨ty, k, p, ts, tid, ui⟩ := e
  simp only at h
  subst h
  show "Generating Patch" ∈ (pushIfAbsent t.steps
    { step := "Generating Patch", status := .running, timestamp := ts,
      details := some ("File: " ++ p.file) }).map (fun s => s.step)
  exact mem_pushIfAbsent t.steps _

lemma fold_requested_mem (es : List Event) (t : HealingTrace)
    (h : ∃ e ∈ es, e.type = "morph.apply.requested") :
    "Generating Patch" ∈
      ((es.foldl updateTraceWithEvent t).steps).map (fun s => s.step) := by
  induction es generalizing t with
  | nil =>
      obtain ⟨e, he, _⟩ := h
      exact absurd he (List.not_mem_nil e)
  | cons e rest ih =>
      obtain ⟨e', he', ht'⟩ := h
      rcases List.mem_cons.mp he' with rfl | hmem
      · exact fold_preserves_step_name _ rest _ (update_requested_mem t e' ht')
      · exact ih _ ⟨e', hmem, ht'⟩

/-- C2: folding any event sequence into a trace whose step names are distinct
keeps the step names distinct — repeated step-producing events are idempotent
on the step list — and as soon as the sequence contains a
`morph.apply.requested` event (once or replayed any number of times), the
resulting trace has exactly one `Generating Patch` step. -/
theorem c2_step_names_nodup (t : HealingTrace) (es : List Event)
    (h : (t.steps.map (fun s => s.step)).Nodup) :
    (((es.foldl updateTraceWithEvent t).steps).map (fun s => s.step)).Nodup ∧
    (((es.foldl updateTraceWithEvent t).steps).map (fun s => s.step)).count
      "Generating Patch" ≤ 1 ∧
    ((∃ e ∈ es, e.type = "morph.apply.requested") →
      (((es.foldl updateTraceWithEvent t).steps).map (fun s => s.step)).count
        "Generating Patch" = 1) := by
  have hmain : ∀ (es : List Event) (t : HealingTrace),
      (t.steps.map (fun s => s.step)).Nodup →
      (((es.foldl updateTraceWithEvent t).steps).map (fun s => s.step)).Nodup := by
    intro es
    induction es with
    | nil => exact fun t ht => ht
    | cons e rest ih => exact fun t ht => ih _ (update_steps_nodup t e ht)
  have hnd := hmain es t h
  have hle := List.nodup_iff_count_le_one.mp hnd "Generating Patch"
  refine ⟨hnd, hle, fun hex => ?_⟩
  exact Nat.le_antisymm hle (List.count_pos_iff.mpr (fold_requested_mem es t hex))

/-- C2 witness: replaying `morph.apply.requested` twice on a fresh trace leaves
a step list without duplicate names and with exactly one `Generating Patch`
entry. -/
theorem c2_witness :
    ((emptyStepsTrace.steps).map (fun s => s.step)).Nodup ∧
    (∃ e ∈ [requestedEvent, requestedEvent], e.type = "morph.apply.requested") ∧
    (((([requestedEvent, requestedEvent]).foldl updateTraceWithEvent
        emptyStepsTrace).steps).map (fun s => s.step)).Nodup ∧
    (((([requestedEvent, requestedEvent]).foldl updateTraceWithEvent
        emptyStepsTrace).steps).map (fun s => s.step)).count "Generating Patch" = 1 :=
  ⟨by decide,
   ⟨requestedEvent, by simp, rfl⟩,
   (c2_step_names_nodup emptyStepsTrace [requestedEvent, requestedEvent] (by decide)).1,
   (c2_step_names_nodup emptyStepsTrace [requestedEvent, requestedEvent] (by decide)).2.2
     ⟨requestedEvent, by simp, rfl⟩⟩

/-! ### Claim C3 -/

/-- C3: processing any event keeps every existing step at its index with its
name, and the step's status is either untouched or set to `success`: no
handler ever moves a step from `success` or `error` back to `running` or
`pending`, nor from `running` back to `pending`. -/
theorem c3_step_status_monotonic (t : HealingTrace) (e : Event) (i : Nat)
    (s : TraceStep) (hs : t.steps[i]? = some s) :
    ∃ s', (updateTraceWithEvent t e).steps[i]? = some s' ∧
      s'.step = s.step ∧
      (s'.status = s.status ∨ s'.status = StepStatus.success) ∧
      ¬((s.status = StepStatus.success ∨ s.status = StepStatus.error) ∧
        (s'.status = StepStatus.running ∨ s'.status = StepStatus.pending)) ∧
      ¬(s.status = StepStatus.running ∧ s'.status = StepStatus.pending) := by
  obtain ⟨l₂, r, hsteps, hf⟩ := update_steps_extends t e
  obtain ⟨hi, hval⟩ := List.getElem?_eq_some.mp hs
  have hi₂ : i < l₂.length := hf.length_eq ▸ hi
  have hrel : stepForward (t.steps.get ⟨i, hi⟩) (l₂.get ⟨i, hi₂⟩) :=
    (List.forall₂_iff_get.mp hf).2 i hi hi₂
  have hsv : t.steps.get ⟨i, hi⟩ = s := hval
  rw [hsv] at hrel
  obtain ⟨hstep, hstat⟩ := hrel
  refine ⟨l₂.get ⟨i, hi₂⟩, ?_, hstep, hstat, ?_, ?_⟩
  · rw [hsteps, List.getElem?_append_left hi₂]
    exact List.getElem?_eq_getElem hi₂
  · rintro ⟨hold, hnew⟩
    rcases hstat with h1 | h1 <;> rcases hold with h2 | h2 <;>
      rcases hnew with h3 | h3 <;> simp_all
  · rintro ⟨hold, hnew⟩
    rcases hstat with h1 | h1 <;> simp_all

/-- C3 witness: the monotonicity theorem applied to a concrete running step
hit by a `morph.apply.succeeded` event. -/
theorem c3_witness :
    sampleBaseTrace.steps[0]? = some sampleTraceStepRunning ∧
    (∃ s', (updateTraceWithEvent sampleBaseTrace applyBigEvent).steps[0]? = some s' ∧
      s'.step = sampleTraceStepRunning.step ∧
      (s'.status = sampleTraceStepRunning.status ∨ s'.status = StepStatus.success) ∧
      ¬((sampleTraceStepRunning.status = StepStatus.success ∨
         sampleTraceStepRunning.status = StepStatus.error) ∧
        (s'.status = StepStatus.running ∨ s'.status = StepStatus.pending)) ∧
      ¬(sampleTraceStepRunning.status = StepStatus.running ∧
        s'.status = StepStatus.pending)) :=
  ⟨rfl, c3_step_status_monotonic sampleBaseTrace applyBigEvent 0 sampleTraceStepRunning rfl⟩

/-! ### Claim C4 -/

/-- C4, counterexample: the reducer has no terminal-state guard — an
`rca.ready` event arriving for a trace already `healed` is applied, moving the
status back to `rca_ready` and mutating the record, instead of being
discarded. -/
theorem c4_counterexample :
    healedTrace.status = TraceStatus.healed ∧
    (updateTraceWithEvent healedTrace rcaEventB).status = TraceStatus.rca_ready ∧
    updateTraceWithEvent healedTrace rcaEventB ≠ healedTrace := by
  refine ⟨rfl, rfl, ?_⟩
  decide

/-- C4 (amended): a trace whose status is `healed` or `rolled_back` is not
terminal: `updateTraceWithEvent` never inspects the current status, so a
subsequent event is processed normally — e.g. an `rca.ready` event sets the
status to `rca_ready` and overwrites `cause` from the payload. -/
theorem c4_terminal_states_not_frozen (t : HealingTrace) (e : Event)
    (ht : t.status = TraceStatus.healed ∨ t.status = TraceStatus.rolled_back)
    (h : e.type = "rca.ready") :
    (updateTraceWithEvent t e).status = TraceStatus.rca_ready ∧
    (updateTraceWithEvent t e).cause = some e.payload.cause := by
  rw [update_rca_ready_eq t e h]
  exact ⟨rfl, rfl⟩

/-- C4 witness: the amended theorem applied to a concrete healed trace. -/
theorem c4_witness :
    (healedTrace.status = TraceStatus.healed ∨
     healedTrace.status = TraceStatus.rolled_back) ∧
    rcaEventB.type = "rca.ready" ∧
    ((updateTraceWithEvent healedTrace rcaEventB).status = TraceStatus.rca_ready ∧
     (updateTraceWithEvent healedTrace rcaEventB).cause = some rcaEventB.payload.cause) :=
  ⟨Or.inl rfl, rfl, c4_terminal_states_not_frozen healedTrace rcaEventB (Or.inl rfl) rfl⟩

/-! ### Claim C5 -/

/-- C5: a `heal.completed` event makes the status `healed` exactly when the
payload status is `"pass"`; otherwise the status becomes `rolled_back` and
`error_message` is set to the payload's message. -/
theorem c5_heal_completed_outcome (t : HealingTrace) (e : Event)
    (h : e.type = "heal.completed") :
    ((updateTraceWithEvent t e).status = TraceStatus.healed ↔
      e.payload.status = "pass") ∧
    (e.payload.status ≠ "pass" →
      (updateTraceWithEvent t e).status = TraceStatus.rolled_back ∧
      (updateTraceWithEvent t e).error_message = some e.payload.message) := by
  rw [update_heal_completed_eq t e h]
  by_cases hp : e.payload.status = "pass"
  · exact ⟨by simp [hp], fun hc => absurd hp hc⟩
  · exact ⟨by simp [hp], fun _ => ⟨by simp [hp], by simp [hp]⟩⟩

/-- C5 witness: a failing `heal.completed` event rolls the trace back and
carries the payload's message as `error_message`. -/
theorem c5_witness :
    healFailEvent.type = "heal.completed" ∧
    (((updateTraceWithEvent sampleBaseTrace healFailEvent).status = TraceStatus.healed ↔
       healFailEvent.payload.status = "pass") ∧
     (healFailEvent.payload.status ≠ "pass" →
       (updateTraceWithEvent sampleBaseTrace healFailEvent).status = TraceStatus.rolled_back ∧
       (updateTraceWithEvent sampleBaseTrace healFailEvent).error_message =
         some healFailEvent.payload.message)) ∧
    (updateTraceWithEvent sampleBaseTrace healFailEvent).status = TraceStatus.rolled_back ∧
    (updateTraceWithEvent sampleBaseTrace healFailEvent).error_message =
      some "replay verification failed" :=
  ⟨rfl, c5_heal_completed_outcome sampleBaseTrace healFailEvent rfl,
   ((c5_heal_completed_outcome sampleBaseTrace healFailEvent rfl).2 (by decide)).1,
   ((c5_heal_completed_outcome sampleBaseTrace healFailEvent rfl).2 (by decide)).2⟩

/-! ### Claim C6 -/

/-- C6, counterexample: `cause`, `confidence`, `taxonomy` are not immutable
after the first diagnosis — a later `rca.ready` event with a different payload
overwrites them with the new values. -/
theorem c6_counterexample :
    diagnosedTrace.cause = some "cause A" ∧
    diagnosedTrace.confidence = some 92 ∧
    (updateTraceWithEvent diagnosedTrace rcaEventB).cause = some "cause B" ∧
    (updateTraceWithEvent diagnosedTrace rcaEventB).confidence = some 55 ∧
    some "cause B" ≠ diagnosedTrace.cause := by
  refine ⟨rfl, rfl, rfl, rfl, ?_⟩
  decide

/-- C6 (amended): `cause`, `confidence` and `taxonomy` are written only by
`rca.ready` events, which always overwrite them with values derived from the
payload — re-delivery with an identical payload is a no-op, but a later
`rca.ready` with a different payload changes them; every other event type
leaves all three fields unchanged. -/
theorem c6_diagnosis_fields_only_rca_writes (t : HealingTrace) (e : Event) :
    (e.type ≠ "rca.ready" →
      (updateTraceWithEvent t e).cause = t.cause ∧
      (updateTraceWithEvent t e).confidence = t.confidence ∧
      (updateTraceWithEvent t e).taxonomy = t.taxonomy) ∧
    (e.type = "rca.ready" →
      (updateTraceWithEvent t e).cause = some e.payload.cause ∧
      (updateTraceWithEvent t e).confidence = some e.payload.confidence ∧
      (updateTraceWithEvent t e).taxonomy =
        some [e.payload.playbook, "SchemaMismatch:return_policy"]) := by
  constructor
  · intro h
    unfold updateTraceWithEvent
    split <;> first
      | exact ⟨rfl, rfl, rfl⟩
      | (rename_i heq; exact absurd heq h)
  · intro h
    rw [update_rca_ready_eq t e h]
    exact ⟨rfl, rfl, rfl⟩

/-- C6 witness: a non-diagnosis event leaves the diagnosis fields unchanged,
and a repeated `rca.ready` overwrites them from its payload. -/
theorem c6_witness :
    healFailEvent.type ≠ "rca.ready" ∧
    ((updateTraceWithEvent diagnosedTrace healFailEvent).cause = diagnosedTrace.cause ∧
     (updateTraceWithEvent diagnosedTrace healFailEvent).confidence = diagnosedTrace.confidence ∧
     (updateTraceWithEvent diagnosedTrace healFailEvent).taxonomy = diagnosedTrace.taxonomy) ∧
    ((updateTraceWithEvent diagnosedTrace rcaEventB).cause = some rcaEventB.payload.cause ∧
     (updateTraceWithEvent diagnosedTrace rcaEventB).confidence = some rcaEventB.payload.confidence ∧
     (updateTraceWithEvent diagnosedTrace rcaEventB).taxonomy =
       some [rcaEventB.payload.playbook, "SchemaMismatch:return_policy"]) :=
  ⟨by decide,
   (c6_diagnosis_fields_only_rca_writes diagnosedTrace healFailEvent).1 (by decide),
   (c6_diagnosis_fields_only_rca_writes diagnosedTrace rcaEventB).2 rfl⟩

/-! ### Claim C7 -/

/-- C7, counterexample: a fresh trace record is created by the first event of
any type carrying a trace id — here an `rca.ready` event, which is neither a
`return_api.failure` nor a `trace.start` failure-detection event. -/
theorem c7_counterexample :
    rcaEventB.type ≠ "return_api.failure" ∧
    rcaEventB.type ≠ "trace.start" ∧
    ∃ t, updateTraceFromEvent none rcaEventB = some t ∧ t.trace_id = "trace-0001" := by
  refine ⟨by decide, by decide, _, rfl, rfl⟩

/-- C7 (amended): a trace record is created on the first event of any type
carrying a non-empty trace id (not only on failure-detection events); the
`trace_id` is assigned at creation from the event and no handler ever changes
it afterwards. -/
theorem c7_creation_and_id_immutable :
    (∀ (e : Event) (tid : String), e.trace_id = some tid → tid ≠ "" →
      ∃ t, updateTraceFromEvent none e = some t ∧ t.trace_id = tid) ∧
    (∀ (t : HealingTrace) (e : Event),
      (updateTraceWithEvent t e).trace_id = t.trace_id) := by
  constructor
  · intro e tid h hne
    unfold updateTraceFromEvent
    rw [h]
    simp only [if_neg hne]
    exact ⟨_, rfl, by rw [update_trace_id]; rfl⟩
  · exact update_trace_id

/-- C7 witness: the amended theorem applied to a concrete diagnosis event and
a concrete later event. -/
theorem c7_witness :
    (rcaEventB.trace_id = some "trace-0001" ∧ "trace-0001" ≠ "" ∧
     ∃ t, updateTraceFromEvent none rcaEventB = some t ∧ t.trace_id = "trace-0001") ∧
    (updateTraceWithEvent sampleBaseTrace healFailEvent).trace_id =
      sampleBaseTrace.trace_id :=
  ⟨⟨rfl, by decide,
    c7_creation_and_id_immutable.1 rcaEventB "trace-0001" rfl (by decide)⟩,
   c7_creation_and_id_immutable.2 sampleBaseTrace healFailEvent⟩

/-! ### Claim C8 -/

/-- C8: the `duration` field is written only by the `heal.completed` handler;
every event of any other type leaves it unchanged. -/
theorem c8_duration_only_heal_completed (t : HealingTrace) (e : Event)
    (h : e.type ≠ "heal.completed") :
    (updateTraceWithEvent t e).duration = t.duration := by
  unfold updateTraceWithEvent
  split <;> first
    | rfl
    | (rename_i heq; exact absurd heq h)

/-- C8 witness: a verification event leaves `duration` unchanged. -/
theorem c8_witness :
    verifyEvent.type ≠ "heal.completed" ∧
    (updateTraceWithEvent sampleBaseTrace verifyEvent).duration =
      sampleBaseTrace.duration :=
  ⟨by decide, c8_duration_only_heal_completed sampleBaseTrace verifyEvent (by decide)⟩

/-! ### Claim C9 -/

/-- C9: every `verify.replay.pass` event stores a verification record whose
`tests` are exactly the two fixed entries `policy_present` and
`eligibility_rule_clearance`, both passed, and whose `metrics_deltas` are
exactly `-18` / `-100`; only `before`, `after` and `replay_ms` come from the
payload. -/
theorem c9_verification_fixed_contents (t : HealingTrace) (e : Event)
    (h : e.type = "verify.replay.pass") :
    (updateTraceWithEvent t e).verification = some
      { before := e.payload.before,
        after := e.payload.after,
        latency_ms := e.payload.replay_ms,
        tests := [{ name := "policy_present", passed := true },
                  { name := "eligibility_rule_clearance", passed := true }],
        metrics_deltas := { p95_change_percent := -18, fail_rate_change_percent := -100 } } := by
  rw [update_verify_pass_eq t e h]

/-- C9 witness: the fixed verification contents on a concrete replay event. -/
theorem c9_witness :
    verifyEvent.type = "verify.replay.pass" ∧
    (updateTraceWithEvent sampleBaseTrace verifyEvent).verification = some
      { before := verifyEvent.payload.before,
        after := verifyEvent.payload.after,
        latency_ms := verifyEvent.payload.replay_ms,
        tests := [{ name := "policy_present", passed := true },
                  { name := "eligibility_rule_clearance", passed := true }],
        metrics_deltas := { p95_change_percent := -18, fail_rate_change_percent := -100 } } :=
  ⟨rfl, c9_verification_fixed_contents sampleBaseTrace verifyEvent rfl⟩

/-! ### Claim C10 -/

/-- C10: folding any sequence of stream messages appends, in arrival order,
exactly the successfully parsed events that are not connection-lifecycle
messages: `connected`/`disconnected` messages and unparseable messages leave
the stored list unchanged, every other parsed message is appended at the end. -/
theorem c10_stream_filters_lifecycle (msgs : List (Option Event)) (init : List Event) :
    msgs.foldl handleStreamMessage init =
      init ++ ((msgs.filterMap id).filter
        (fun d => !(d.type == "connected" || d.type == "disconnected"))) := by
  induction msgs generalizing init with
  | nil => simp
  | cons m rest ih =>
      cases m with
      | none =>
          simp only [List.foldl_cons, List.filterMap_cons_none]
          exact ih init
      | some d =>
          simp only [List.foldl_cons]
          have hfm : List.filterMap id (some d :: rest) = d :: List.filterMap id rest := rfl
          rw [hfm]
          by_cases hd : d.type = "connected" ∨ d.type = "disconnected"
          · have hh : handleStreamMessage init (some d) = init := by
              unfold handleStreamMessage
              simp [hd]
            rw [hh, ih init]
            congr 1
            rw [List.filter_cons_of_neg (by rcases hd with h | h <;> simp [h])]
          · obtain ⟨h1, h2⟩ := not_or.mp hd
            have hh : handleStreamMessage init (some d) = init ++ [d] := by
              unfold handleStreamMessage
              simp [h1, h2]
            rw [hh, ih (init ++ [d]), List.append_assoc]
            congr 1
            rw [List.filter_cons_of_pos (by simp [h1, h2])]
            rfl

end SelfHealing
